import Mathlib

/-
Verification of the turn-processing pipeline of an e-commerce
conversational agent: order-id extraction, the five business lookups,
intent classification with its deterministic fallback, the dispatch
node, conversation-state reset, history trimming, and the logging stage.

Shallow embedding conventions:
  * Python strings are Lean strings; character-level scans work on the
    underlying character list.
  * SQLAlchemy rows become Lean structures; nullable columns become
    Option fields; a relationship that may fail to resolve becomes an
    Option of the target row; DateTime columns are carried as their
    rendered text since the code only interpolates them into messages.
  * Float columns are modelled as exact rationals.
  * Python functions that may raise are modelled in Except String,
    carrying the exception text.
-/

/-! Python string primitives used by the code -/

/-- Python truthiness of an optional string under the `x or default`
idiom: None and the empty string both fall back to the default. -/
def pyOrStr : Option String → String → String
  | none, d => d
  | some s, d => if s = "" then d else s

/-- Python `x or 0` on a nullable numeric column. -/
def pyOrQ : Option ℚ → ℚ
  | none => 0
  | some v => v

/-- Whitespace characters stripped by the Python str.strip method
(ASCII range). -/
def pyWhitespace (c : Char) : Bool :=
  c.toNat = 32 || c.toNat = 9 || c.toNat = 10 || c.toNat = 13 ||
  c.toNat = 11 || c.toNat = 12

/-- Embedding of Python str.strip: drop whitespace from both ends. -/
def pyStrip (s : String) : String :=
  String.mk (((s.data.dropWhile pyWhitespace).reverse.dropWhile pyWhitespace).reverse)

/-- Embedding of Python str.lower, character by character. -/
def pyLower (s : String) : String :=
  String.mk (s.data.map Char.toLower)

/-- Contiguous-substring test on character lists, mirroring the Python
`needle in hay` operator. -/
def containsSubL (needle : List Char) : List Char → Bool
  | [] => needle.isEmpty
  | c :: rest => needle.isPrefixOf (c :: rest) || containsSubL needle rest

/-- Embedding of the Python substring operator `needle in hay`. -/
def containsSub (hay needle : String) : Bool :=
  containsSubL needle.data hay.data

/-! Order-id extraction (regex `\b[0-9a-f]{32,}\b`)

The four id-dependent lookups share the regex search
`re.search(r'(\b[0-9a-f]{32,}\b)', query)`.  A match attempt at a
position succeeds exactly when the position sits at a word boundary,
the maximal run of lowercase hex characters from it has length at
least 32, and the character following that run (if any) is not a word
character; greedy repetition makes backtracking inside the run
useless, because every shorter run would end between two word
characters.  The scanner below tries each start position left to
right, which is the search semantics of the Python re module. -/

/-- Word characters of the regex `\b` boundary (ASCII range): letters,
digits and the underscore. -/
def isWordChar (c : Char) : Bool :=
  decide ('a' ≤ c ∧ c ≤ 'z') || decide ('A' ≤ c ∧ c ≤ 'Z') ||
  decide ('0' ≤ c ∧ c ≤ '9') || decide (c = '_')

/-- Characters matched by the regex class `[0-9a-f]`. -/
def isHexLower (c : Char) : Bool :=
  decide ('0' ≤ c ∧ c ≤ '9') || decide ('a' ≤ c ∧ c ≤ 'f')

/-- Success condition of one regex match attempt at the head of `l`
with preceding character `prev`: word boundary before, a maximal hex
run of length at least 32, and a word boundary after the run. -/
def hexCondAt (prev : Option Char) (l : List Char) : Bool :=
  (match prev with
   | none => true
   | some p => !(isWordChar p)) &&
  decide (32 ≤ (l.takeWhile isHexLower).length) &&
  (match (l.dropWhile isHexLower).head? with
   | none => true
   | some d => !(isWordChar d))

/-- Left-to-right scanner for the first match of `\b[0-9a-f]{32,}\b`;
`prev` is the character immediately before the current position. -/
def findHexToken (prev : Option Char) : List Char → Option (List Char)
  | [] => none
  | c :: rest =>
    if hexCondAt prev (c :: rest) then some ((c :: rest).takeWhile isHexLower)
    else findHexToken (some c) rest

/-- Embedding of the shared id-extraction step of the four lookups:
group 1 of the first regex match, or None. -/
def extract_order_id (query : String) : Option String :=
  (findHexToken none query.data).map String.mk

/-- A possibly absent neighbouring character is no word character. -/
def NotWordOpt : Option Char → Prop
  | none => True
  | some c => isWordChar c = false

/-- The character immediately before a candidate run: the last one of
the prefix or, when the prefix is empty, the scan context. -/
def charBefore (prev : Option Char) (pre : List Char) : Option Char :=
  match pre.getLast? with
  | some c => some c
  | none => prev

/-- Boundary condition to the left of a candidate run. -/
def BoundaryBefore (prev : Option Char) (pre : List Char) : Prop :=
  NotWordOpt (charBefore prev pre)

/-- Boundary condition to the right of a candidate run. -/
def BoundaryAfter (post : List Char) : Prop :=
  NotWordOpt post.head?

/-- Existence of a substring of 32 or more consecutive lowercase hex
characters bounded by word boundaries, relative to a scan context. -/
def HasTokenAux (prev : Option Char) (l : List Char) : Prop :=
  ∃ pre run post, l = pre ++ run ++ post ∧ 32 ≤ run.length ∧
    (∀ c ∈ run, isHexLower c = true) ∧ BoundaryBefore prev pre ∧ BoundaryAfter post

/-- The query contains a substring of 32 or more consecutive lowercase
hex characters bounded by word boundaries. -/
def containsHexToken (q : String) : Prop := HasTokenAux none q.data

/-! Two-decimal formatting (Python `{x:.2f}`)

Payment and price values are carried as exact rationals; the format
specifier rounds to two decimals with round-half-to-even and keeps the
sign of the value. -/

/-- The value in hundredths: q times 100 rounded to the nearest
integer with ties to even, computed on the numerator and denominator
so that 2r is compared against d, where r is the remainder of the
floor division of 100 times the numerator by the denominator. -/
def centsOf (q : ℚ) : ℤ :=
  let n : ℤ := q.num * 100
  let d : ℤ := (q.den : ℤ)
  let f : ℤ := Int.fdiv n d
  let r : ℤ := n - f * d
  if 2 * r < d then f
  else if d < 2 * r then f + 1
  else if f % 2 = 0 then f else f + 1

/-- Render a natural number below 100 with two digits. -/
def pad2 (n : ℕ) : String :=
  if n < 10 then "0" ++ toString n else toString n

/-- Embedding of the Python format specifier `.2f`: the rounded
magnitude in hundredths, split at the decimal point, behind the sign
of the value. -/
def fmt2 (q : ℚ) : String :=
  let cents := (centsOf q).natAbs
  (if q < 0 then "-" else "") ++ toString (cents / 100) ++ "." ++ pad2 (cents % 100)

/-! Relational rows (SQLAlchemy models)

One structure per ORM model, restricted to the columns; columns the
code never reads get defaults so that concrete rows stay small.
Relationship attributes that the code dereferences are embedded in the
row as the resolved target (Option target where resolution can fail
because the foreign row is absent). -/

/-- Row of product_category_name_translation. -/
structure TranslationRow where
  product_category_name : String := ""
  product_category_name_english : String
deriving Repr, DecidableEq

/-- Row of olist_products_dataset, with the resolved (view-only)
category_translation relationship. -/
structure ProductRow where
  product_id : String := ""
  product_category_name : Option String := none
  category_translation : Option TranslationRow := none
deriving Repr, DecidableEq

/-- Row of olist_sellers_dataset. -/
structure SellerRow where
  seller_id : String
  seller_zip_code_prefix : ℤ := 0
  seller_city : String := ""
  seller_state : String := ""
deriving Repr, DecidableEq

/-- Row of olist_customers_dataset. -/
structure CustomerRow where
  customer_id : String := ""
  customer_unique_id : String
  customer_zip_code_prefix : ℤ := 0
  customer_city : String
  customer_state : String
deriving Repr, DecidableEq

/-- Row of olist_order_items_dataset, with the resolved product and
seller relationships (None when the foreign row does not resolve). -/
structure OrderItemRow where
  order_id : String := ""
  order_item_id : ℤ := 1
  product_id : String
  seller_id : String := ""
  shipping_limit_date : String := ""
  price : ℚ
  freight_value : ℚ := 0
  product : Option ProductRow := none
  seller : Option SellerRow := none
deriving Repr, DecidableEq

/-- Row of olist_order_payments_dataset. -/
structure PaymentRow where
  order_id : String
  payment_sequential : ℤ := 1
  payment_type : String := ""
  payment_installments : ℤ := 1
  payment_value : Option ℚ
deriving Repr, DecidableEq

/-- Row of olist_order_reviews_dataset. -/
structure ReviewRow where
  review_id : String := ""
  order_id : String
  review_score : ℤ
  review_comment_title : Option String := none
  review_comment_message : Option String := none
  review_creation_date : String := ""
  review_answer_timestamp : String := ""
deriving Repr, DecidableEq

/-- Row of olist_orders_dataset, with the resolved customer and
order_items relationships; DateTime columns are carried as their
rendered text. -/
structure OrderRow where
  order_id : String
  customer_id : String := ""
  order_status : String
  order_purchase_timestamp : String
  order_approved_at : Option String := none
  order_delivered_carrier_date : Option String := none
  order_delivered_customer_date : Option String := none
  order_estimated_delivery_date : String
  customer : Option CustomerRow := none
  order_items : List OrderItemRow := []
deriving Repr, DecidableEq

/-- The relational store visible to a session: the three tables the
lookups query directly. -/
structure Database where
  orders : List OrderRow
  payments : List PaymentRow
  reviews : List ReviewRow
deriving Repr, DecidableEq

/-- The order_payments relationship: payment rows whose order_id
matches the order. -/
def order_payments (db : Database) (o : OrderRow) : List PaymentRow :=
  db.payments.filter (fun p => p.order_id == o.order_id)

/-- The order_reviews relationship: review rows whose order_id matches
the order. -/
def order_reviews (db : Database) (o : OrderRow) : List ReviewRow :=
  db.reviews.filter (fun r => r.order_id == o.order_id)

/-- Payment rows returned by the filter_by(order_id).all() query of
get_refund_status. -/
def paymentsFor (db : Database) (oid : String) : List PaymentRow :=
  db.payments.filter (fun p => p.order_id == oid)

/-- Sum of the payment values of an order, a null value counting as
zero. -/
def totalPaid (db : Database) (oid : String) : ℚ :=
  ((paymentsFor db oid).map (fun p => pyOrQ p.payment_value)).sum

/-! Business lookups (tools/business_tools.py) -/

/-- Embedding of get_order_status: extract the id, point-look the
order up, and render the three-line status message. -/
def get_order_status (query : String) (db : Database) : String :=
  match extract_order_id query with
  | none => "Please provide a valid order ID (32-character hex)."
  | some oid =>
    match db.orders.find? (fun o => o.order_id == oid) with
    | none => "No order found for ID: " ++ oid ++ "."
    | some order =>
      "Order " ++ oid ++ " status: " ++ order.order_status ++ "\n" ++
      "Purchased: " ++ order.order_purchase_timestamp ++ "\n" ++
      "Estimated delivery: " ++ order.order_estimated_delivery_date

/-- Embedding of get_refund_status: extract the id, fetch all payment
rows, then branch on emptiness and on the exact sum. -/
def get_refund_status (query : String) (db : Database) : String :=
  match extract_order_id query with
  | none => "Please provide a valid order ID (32-character hex)."
  | some oid =>
    let payments := paymentsFor db oid
    if payments.isEmpty then "No payment info for order " ++ oid ++ "."
    else
      let total := totalPaid db oid
      if total = 0 then "Order " ++ oid ++ " was fully refunded."
      else "Order " ++ oid ++ " was paid " ++ fmt2 total ++ ", refund status unknown."

/-- Embedding of get_review: extract the id, fetch the first matching
review row, and render score and message. -/
def get_review (query : String) (db : Database) : String :=
  match extract_order_id query with
  | none => "Please provide a valid order ID (32-character hex)."
  | some oid =>
    match db.reviews.find? (fun r => r.order_id == oid) with
    | none => "No review found for order " ++ oid ++ "."
    | some review =>
      "Review for order " ++ oid ++ ":\n" ++
      "Score: " ++ toString review.review_score ++ "\n" ++
      "Message: " ++ pyOrStr review.review_comment_message "No comment."

/-- Category text of an item: the English translation when the
translation relationship resolves, else the raw category code of the
product, else None when the product itself does not resolve. -/
def categoryOf : Option ProductRow → Option String
  | none => none
  | some p =>
    match p.category_translation with
    | some t => some t.product_category_name_english
    | none => p.product_category_name

/-- One item line of get_order_details.  Reading seller_id off an
unresolved seller relationship raises in the source; the raised
attribute error is made explicit here. -/
def itemLine (item : OrderItemRow) : Except String String :=
  match item.seller with
  | none => Except.error "AttributeError: NoneType object has no attribute seller_id"
  | some seller =>
    Except.ok ("  - " ++ item.product_id ++ " (" ++
      pyOrStr (categoryOf item.product) "unknown category" ++ ") from " ++
      seller.seller_id ++ " price " ++ fmt2 item.price)

/-- First-occurrence deduplication, the embedding of the distinct
payment types collected by the source through a Python set (whose
iteration order is implementation defined; one order is fixed here). -/
def dedupFirst (l : List String) : List String :=
  l.foldl (fun acc x => if x ∈ acc then acc else acc ++ [x]) []

/-- The Items section: absent when the order has no items, otherwise a
header plus one line per item, aborting with the first raised error. -/
def itemsSection (items : List OrderItemRow) : Except String (List String) :=
  if items.isEmpty then Except.ok []
  else
    match items.mapM itemLine with
    | Except.error e => Except.error e
    | Except.ok ls => Except.ok ("Items:" :: ls)

/-- Embedding of get_order_details: base block, optional customer
line, items section, payments summary, first review. -/
def get_order_details (query : String) (db : Database) : Except String String :=
  match extract_order_id query with
  | none => Except.ok "Please provide a valid order ID (32-character hex)."
  | some oid =>
    match db.orders.find? (fun o => o.order_id == oid) with
    | none => Except.ok ("No order found for ID: " ++ oid ++ ".")
    | some order =>
      let baseLines :=
        ["Order " ++ order.order_id ++ " status: " ++ order.order_status,
         "Purchased: " ++ order.order_purchase_timestamp,
         "Estimated delivery: " ++ order.order_estimated_delivery_date]
      let custLines :=
        match order.customer with
        | some c => ["Customer " ++ c.customer_unique_id ++ " in " ++
                     c.customer_city ++ ", " ++ c.customer_state]
        | none => []
      match itemsSection order.order_items with
      | Except.error e => Except.error e
      | Except.ok itemLines =>
        let pays := order_payments db order
        let payLines :=
          if pays.isEmpty then []
          else
            ["Payments: " ++ fmt2 ((pays.map (fun p => pyOrQ p.payment_value)).sum) ++
             " via " ++ String.intercalate ", " (dedupFirst (pays.map (fun p => p.payment_type)))]
        let revLines :=
          match (order_reviews db order).head? with
          | none => []
          | some r => ["Review: " ++ toString r.review_score ++ " - " ++
                       pyOrStr r.review_comment_message "No comment."]
        Except.ok (String.intercalate "\n"
          (baseLines ++ custLines ++ itemLines ++ payLines ++ revLines))

/-! Intent classification (llm/llm.py) -/

/-- The closed set of intent labels. -/
def allowedIntents : List String :=
  ["faq", "order_status", "refund_status", "review", "order_details"]

/-- Normalization applied to the raw primary-classifier response:
strip whitespace, then lower-case. -/
def normalize_response (raw : String) : String := pyLower (pyStrip raw)

/-- Embedding of classify_intent, with the primary-classifier response
passed in as the external collaborator result: keep the normalized
response when it lies in the allowed set, else apply the keyword
fallback on the lower-cased query. -/
def classify_intent (primaryResponse : String) (query : String) : String :=
  let intent := normalize_response primaryResponse
  if intent ∈ allowedIntents then intent
  else if containsSub (pyLower query) "detail" || containsSub (pyLower query) "item" then
    "order_details"
  else if containsSub (pyLower query) "order" then "order_status"
  else "faq"

/-! Conversation state (agent/state.py) -/

/-- One completed exchange: the user message and the agent answer. -/
structure AgentTurn where
  user : String
  agent : String
deriving Repr, DecidableEq

/-- The mutable workflow state.  The two free-form debug fields
(intermediate_steps, context) carry values of arbitrary Python type,
are never read or written by the embedded pipeline, and are omitted. -/
structure AgentState where
  input : String
  classification : Option String := none
  tool_output : Option String := none
  output : Option String := none
  history : List AgentTurn := []
deriving Repr, DecidableEq

/-- Embedding of AgentState.add_turn: append the new turn, then, for a
positive limit, keep only the last limit entries. -/
def add_turn (s : AgentState) (user agent : String) (limit : ℤ) : AgentState :=
  let h := s.history ++ [AgentTurn.mk user agent]
  if 0 < limit then { s with history := h.drop (h.length - limit.toNat) }
  else { s with history := h }

/-- A sequence of add_turn calls with a fixed limit. -/
def applyTurns (s : AgentState) (calls : List (String × String)) (limit : ℤ) : AgentState :=
  calls.foldl (fun st c => add_turn st c.1 c.2 limit) s

/-! Workflow nodes (agent/workflow.py)

The five lookups reach tool_node closed over a live database session
and may raise; the dispatch stage is therefore parameterized by the
five lookup callables, each returning normally or raising. -/

/-- The five tool callables visible to tool_node. -/
structure Tools where
  search_faq : String → Except String String
  order_status : String → Except String String
  order_details : String → Except String String
  refund_status : String → Except String String
  review : String → Except String String

/-- The routing chain inside the try block of tool_node: each intent
label selects one lookup; anything else yields the sentinel. -/
def dispatch (t : Tools) (classification : Option String) (query : String) :
    Except String String :=
  if classification = some "order_status" then t.order_status query
  else if classification = some "order_details" then t.order_details query
  else if classification = some "faq" then t.search_faq query
  else if classification = some "refund_status" then t.refund_status query
  else if classification = some "review" then t.review query
  else Except.ok "I'm sorry, I could not classify your request."

/-- Embedding of tool_node: run the routing chain, catching any raised
error and converting it to the dispatch error string; the resulting
text is stored as the tool output. -/
def tool_node (t : Tools) (s : AgentState) : AgentState :=
  let output :=
    match dispatch t s.classification s.input with
    | Except.ok o => o
    | Except.error e => "Error during tool dispatch: " ++ e
  { s with tool_output := some output }

/-- Embedding of perception_node, with the primary-classifier response
passed in as the external collaborator result. -/
def perception_node (primaryResponse : String) (s : AgentState) : AgentState :=
  { s with classification := some (classify_intent primaryResponse s.input) }

/-- Embedding of answer_node, with the rephrasing collaborator passed
in as a function. -/
def answer_node (rephrase : String → String) (s : AgentState) : AgentState :=
  { s with output := some (rephrase (pyOrStr s.tool_output "")) }

/-- Embedding of learning_node: log_interaction performs one append
write with no exception handler, so a failed write propagates. -/
def learning_node (writeResult : Except String Unit) (s : AgentState) :
    Except String AgentState :=
  match writeResult with
  | Except.ok _ => Except.ok s
  | Except.error e => Except.error e

/-- The start-of-turn state handling of ask_agent: build a fresh state
on the first call, otherwise overwrite input and reset the three
per-turn fields of the retained state. -/
def ask_agent_entry (prev : Option AgentState) (q : String) : AgentState :=
  match prev with
  | none => { input := q }
  | some s => { s with input := q, classification := none,
                       tool_output := none, output := none }

/-- Embedding of ask_agent: entry reset, the four pipeline nodes in
order, then the history append with the default limit of three; the
answer text is returned next to the retained state. -/
def ask_agent_run (primaryResponse : String) (t : Tools) (rephrase : String → String)
    (writeResult : Except String Unit) (prev : Option AgentState) (q : String) :
    Except String (AgentState × String) :=
  let s1 := perception_node primaryResponse (ask_agent_entry prev q)
  let s2 := answer_node rephrase (tool_node t s1)
  match learning_node writeResult s2 with
  | Except.error e => Except.error e
  | Except.ok s3 =>
    let s4 := add_turn s3 q (pyOrStr s3.output "") 3
    Except.ok (s4, pyOrStr s4.output "")

/-! Concrete sample data used by witnesses -/

/-- A 32-character lowercase hex order id. -/
def hex32a : String := "aaaaaaaaaaaaaaaaaaaaaaaaaaaaaaaa"

/-- Another 32-character lowercase hex order id. -/
def hex32b : String := "bbbbbbbbbbbbbbbbbbbbbbbbbbbbbbbb"

/-- An empty relational store. -/
def dbEmpty : Database := { orders := [], payments := [], reviews := [] }

/-- A store holding one payment of 49.90 for hex32a. -/
def dbPaid : Database :=
  { orders := [],
    payments := [{ order_id := hex32a, payment_type := "credit_card",
                   payment_value := some (499/10) }],
    reviews := [] }

/-- A store whose payments for hex32a sum to exactly zero. -/
def dbRefunded : Database :=
  { orders := [],
    payments := [{ order_id := hex32a, payment_type := "voucher",
                   payment_value := some 0 }],
    reviews := [] }

/-- A refund query carrying the id hex32a. -/
def qRefund : String := "refund status for order " ++ hex32a

/-- A details query carrying the id hex32b. -/
def qDetails : String := "details for " ++ hex32b

/-- An order item whose seller relationship does not resolve. -/
def itemNoSeller : OrderItemRow :=
  { product_id := "prod1", price := 10,
    product := some { product_id := "prod1" }, seller := none }

/-- An order item whose product relationship does not resolve. -/
def itemNoProduct : OrderItemRow :=
  { product_id := "prod1", price := 10,
    product := none, seller := some { seller_id := "sell1" } }

/-- A store with an order whose single item has an unresolved seller. -/
def dbNoSeller : Database :=
  { orders := [{ order_id := hex32b, order_status := "delivered",
                 order_purchase_timestamp := "2018-01-01 10:00:00",
                 order_estimated_delivery_date := "2018-01-20 00:00:00",
                 order_items := [itemNoSeller] }],
    payments := [], reviews := [] }

/-- A store with an order whose single item has an unresolved product
but a resolved seller. -/
def dbNoProduct : Database :=
  { orders := [{ order_id := hex32b, order_status := "delivered",
                 order_purchase_timestamp := "2018-01-01 10:00:00",
                 order_estimated_delivery_date := "2018-01-20 00:00:00",
                 order_items := [itemNoProduct] }],
    payments := [], reviews := [] }

/-- A fresh conversation state. -/
def stQ0 : AgentState := { input := "q0" }

/-- A state that already holds three turns of history. -/
def st3 : AgentState :=
  { input := "u3",
    history := [AgentTurn.mk "u1" "a1", AgentTurn.mk "u2" "a2", AgentTurn.mk "u3" "a3"] }

/-- A state classified for the order-status lookup. -/
def stOrder : AgentState :=
  { input := "where is my order", classification := some "order_status" }

/-- Tool callables that all return normally. -/
def toolsOk : Tools :=
  { search_faq := fun _ => Except.ok "faq answer",
    order_status := fun _ => Except.ok "status text",
    order_details := fun _ => Except.ok "details text",
    refund_status := fun _ => Except.ok "refund text",
    review := fun _ => Except.ok "review text" }

/-- Tool callables whose order-status lookup raises. -/
def toolsBoom : Tools :=
  { search_faq := fun _ => Except.ok "faq answer",
    order_status := fun _ => Except.error "database is locked",
    order_details := fun _ => Except.ok "details text",
    refund_status := fun _ => Except.ok "refund text",
    review := fun _ => Except.ok "review text" }

/-! Theorems -/

theorem add_turn_length_le (s : AgentState) (u a : String) (H : ℤ) (hH : 0 < H) :
    (add_turn s u a H).history.length ≤ H.toNat := by
  unfold add_turn
  rw [if_pos hH]
  simp only [List.length_drop]
  omega

theorem applyTurns_length_le (calls : List (String × String)) (s : AgentState)
    (H : ℤ) (hH : 0 < H) (hs : s.history.length ≤ H.toNat) :
    (applyTurns s calls H).history.length ≤ H.toNat := by
  induction calls generalizing s with
  | nil => exact hs
  | cons c rest ih => exact ih (add_turn s c.1 c.2 H) (add_turn_length_le s c.1 c.2 H hH)

theorem applyTurns_length_unbounded (calls : List (String × String)) (s : AgentState) :
    (applyTurns s calls 0).history.length = s.history.length + calls.length := by
  induction calls generalizing s with
  | nil => rfl
  | cons c rest ih =>
    have h1 : (add_turn s c.1 c.2 0).history.length = s.history.length + 1 := by
      simp [add_turn]
    have h2 : applyTurns s (c :: rest) 0 = applyTurns (add_turn s c.1 c.2 0) rest 0 := rfl
    rw [h2, ih, h1, List.length_cons]
    omega

/-- C2: with positive capacity H, after any sequence of add_turn
calls the history length stays at most H; with capacity 0 nothing is
dropped, so from a fresh state the history length equals the number
of calls. -/
theorem c2_history_capacity (s : AgentState) (calls : List (String × String)) (H : ℤ) :
    (0 < H → calls ≠ [] → ((applyTurns s calls H).history.length : ℤ) ≤ H) ∧
    (H = 0 → s.history = [] → (applyTurns s calls H).history.length = calls.length) := by
  constructor
  · intro hH hne
    match calls, hne with
    | c :: rest, _ =>
      have h1 : (add_turn s c.1 c.2 H).history.length ≤ H.toNat :=
        add_turn_length_le s c.1 c.2 H hH
      have h2 := applyTurns_length_le rest (add_turn s c.1 c.2 H) H hH h1
      have h3 : applyTurns s (c :: rest) H = applyTurns (add_turn s c.1 c.2 H) rest H := rfl
      rw [h3]
      omega
  · intro h0 hemp
    subst h0
    rw [applyTurns_length_unbounded, hemp]
    simp

theorem c2_history_capacity_witness :
    ((applyTurns stQ0 [("u1", "a1"), ("u2", "a2")] 1).history.length : ℤ) ≤ 1 ∧
    (applyTurns stQ0 [("u1", "a1"), ("u2", "a2")] 0).history.length = 2 :=
  ⟨(c2_history_capacity stQ0 [("u1", "a1"), ("u2", "a2")] 1).1 (by decide) (by decide),
   (c2_history_capacity stQ0 [("u1", "a1"), ("u2", "a2")] 0).2 rfl rfl⟩

/-- C8: with positive capacity H, add_turn yields the last H entries
of the appended history; the last entry is the supplied pair; a full
window evicts exactly the oldest entry. -/
theorem c8_add_turn_window (s : AgentState) (u a : String) (H : ℤ) (hH : 0 < H) :
    (add_turn s u a H).history =
      (s.history ++ [AgentTurn.mk u a]).drop (s.history.length + 1 - H.toNat) ∧
    (add_turn s u a H).history.getLast? = some (AgentTurn.mk u a) ∧
    (s.history.length = H.toNat →
      (add_turn s u a H).history = s.history.tail ++ [AgentTurn.mk u a]) := by
  have h1 : 1 ≤ H.toNat := by omega
  have hlen : (s.history ++ [AgentTurn.mk u a]).length = s.history.length + 1 := by simp
  have hdef : (add_turn s u a H).history =
      (s.history ++ [AgentTurn.mk u a]).drop
        ((s.history ++ [AgentTurn.mk u a]).length - H.toNat) := by
    unfold add_turn
    rw [if_pos hH]
  refine ⟨?_, ?_, ?_⟩
  · rw [hdef, hlen]
  · rw [hdef, hlen, List.drop_append_eq_append_drop]
    have h2 : s.history.length + 1 - H.toNat - s.history.length = 0 := by omega
    rw [h2, List.drop_zero, List.getLast?_concat]
  · intro hfull
    rw [hdef, hlen, hfull]
    have h3 : H.toNat + 1 - H.toNat = 1 := by omega
    have h4 : 1 - s.history.length = 0 := by omega
    rw [h3, List.drop_append_eq_append_drop, List.drop_one, h4, List.drop_zero]

theorem c8_add_turn_window_witness :
    (add_turn st3 "u4" "a4" 3).history =
      (st3.history ++ [AgentTurn.mk "u4" "a4"]).drop (st3.history.length + 1 - (3 : ℤ).toNat) ∧
    (add_turn st3 "u4" "a4" 3).history.getLast? = some (AgentTurn.mk "u4" "a4") ∧
    (add_turn st3 "u4" "a4" 3).history = st3.history.tail ++ [AgentTurn.mk "u4" "a4"] :=
  have h := c8_add_turn_window st3 "u4" "a4" 3 (by decide)
  ⟨h.1, h.2.1, h.2.2 (by decide)⟩

/-- C6: on a follow-up call, the entry step of ask_agent overwrites
the input with the new query, resets classification, tool output and
output to absent, and leaves the history untouched. -/
theorem c6_reset_preserves_history (s : AgentState) (q : String) :
    (ask_agent_entry (some s) q).input = q ∧
    (ask_agent_entry (some s) q).classification = none ∧
    (ask_agent_entry (some s) q).tool_output = none ∧
    (ask_agent_entry (some s) q).output = none ∧
    (ask_agent_entry (some s) q).history = s.history :=
  ⟨rfl, rfl, rfl, rfl, rfl⟩

/-- C4: whenever the routing chain of tool_node raises, the error is
caught and stored as the tool output in the dispatch error format, and
the node still returns a state. -/
theorem c4_dispatch_errors_caught (t : Tools) (s : AgentState) (e : String)
    (h : dispatch t s.classification s.input = Except.error e) :
    (tool_node t s).tool_output = some ("Error during tool dispatch: " ++ e) := by
  simp [tool_node, h]

theorem c4_dispatch_errors_caught_witness :
    (tool_node toolsBoom stOrder).tool_output =
      some ("Error during tool dispatch: " ++ "database is locked") :=
  c4_dispatch_errors_caught toolsBoom stOrder "database is locked" rfl

/-- C9: any classification outside the five labels makes the routing
chain return the sentinel string, independently of what the five
lookups would do. -/
theorem c9_unknown_intent_sentinel (t : Tools) (c : Option String) (q : String)
    (h : c ∉ [some "faq", some "order_status", some "order_details",
              some "refund_status", some "review"]) :
    dispatch t c q = Except.ok "I'm sorry, I could not classify your request." := by
  have h1 : c ≠ some "faq" := fun hh => h (by simp [hh])
  have h2 : c ≠ some "order_status" := fun hh => h (by simp [hh])
  have h3 : c ≠ some "order_details" := fun hh => h (by simp [hh])
  have h4 : c ≠ some "refund_status" := fun hh => h (by simp [hh])
  have h5 : c ≠ some "review" := fun hh => h (by simp [hh])
  simp [dispatch, h1, h2, h3, h4, h5]

theorem c9_unknown_intent_sentinel_witness :
    dispatch toolsOk (some "chitchat") "hello" =
      Except.ok "I'm sorry, I could not classify your request." :=
  c9_unknown_intent_sentinel toolsOk (some "chitchat") "hello" (by decide)

/-- C5: when the normalized primary response lies outside the allowed
set, classify_intent follows the keyword fallback on the lower-cased
query, and in every case its result is one of the five labels. -/
theorem c5_classifier_fallback (raw q : String) :
    (normalize_response raw ∉ allowedIntents →
      classify_intent raw q =
        (if containsSub (pyLower q) "detail" || containsSub (pyLower q) "item" then
           "order_details"
         else if containsSub (pyLower q) "order" then "order_status"
         else "faq")) ∧
    classify_intent raw q ∈ allowedIntents := by
  constructor
  · intro h
    simp [classify_intent, h]
  · by_cases h : normalize_response raw ∈ allowedIntents
    · simp [classify_intent, h]
    · simp only [classify_intent, if_neg h]
      split_ifs <;> decide

theorem c5_classifier_fallback_witness :
    (classify_intent "unsure" "show me my order please" =
      (if containsSub (pyLower "show me my order please") "detail" ||
          containsSub (pyLower "show me my order please") "item" then "order_details"
       else if containsSub (pyLower "show me my order please") "order" then "order_status"
       else "faq")) ∧
    classify_intent "unsure" "show me my order please" ∈ allowedIntents :=
  ⟨(c5_classifier_fallback "unsure" "show me my order please").1 (by decide),
   (c5_classifier_fallback "unsure" "show me my order please").2⟩

theorem hex_isWordChar {c : Char} (h : isHexLower c = true) : isWordChar c = true := by
  simp only [isHexLower, Bool.or_eq_true, decide_eq_true_eq] at h
  have hz : ('a' ≤ c ∧ c ≤ 'z') ∨ ('A' ≤ c ∧ c ≤ 'Z') ∨ ('0' ≤ c ∧ c ≤ '9') ∨ c = '_' := by
    rcases h with h | h
    · exact Or.inr (Or.inr (Or.inl h))
    · exact Or.inl ⟨h.1, le_trans h.2 (by decide)⟩
  simp only [isWordChar, Bool.or_eq_true, decide_eq_true_eq]
  tauto

theorem takeWhile_all_append {p : Char → Bool} (run post : List Char)
    (hrun : ∀ c ∈ run, p c = true)
    (hpost : ∀ d, post.head? = some d → p d = false) :
    (run ++ post).takeWhile p = run ∧ (run ++ post).dropWhile p = post := by
  induction run with
  | nil =>
    simp only [List.nil_append]
    cases post with
    | nil => simp
    | cons d ds =>
      have hd := hpost d rfl
      simp [List.takeWhile_cons, List.dropWhile_cons, hd]
  | cons a as ih =>
    have ha : p a = true := hrun a (List.mem_cons_self a as)
    have ih2 := ih (fun c hc => hrun c (List.mem_cons_of_mem a hc))
    simp [List.takeWhile_cons, List.dropWhile_cons, ha, ih2.1, ih2.2]

theorem charBefore_cons (prev : Option Char) (c : Char) (pre : List Char) :
    charBefore prev (c :: pre) = charBefore (some c) pre := by
  cases pre with
  | nil => simp [charBefore]
  | cons p ps =>
    cases hx : (p :: ps).getLast? with
    | none =>
      exact absurd hx (by simp)
    | some x => simp [charBefore, List.getLast?_cons_cons, hx]

theorem findHexToken_sound (l : List Char) : ∀ (prev : Option Char) (r : List Char),
    findHexToken prev l = some r → HasTokenAux prev l := by
  induction l with
  | nil => intro prev r h; simp [findHexToken] at h
  | cons c rest ih =>
    intro prev r h
    rw [findHexToken] at h
    by_cases hc : hexCondAt prev (c :: rest) = true
    · unfold hexCondAt at hc
      rw [Bool.and_eq_true, Bool.and_eq_true] at hc
      obtain ⟨⟨hA, hB⟩, hC⟩ := hc
      refine ⟨[], (c :: rest).takeWhile isHexLower, (c :: rest).dropWhile isHexLower,
        ?_, of_decide_eq_true hB, ?_, ?_, ?_⟩
      · simp [List.takeWhile_append_dropWhile]
      · intro x hx; exact List.mem_takeWhile_imp hx
      · show NotWordOpt (charBefore prev [])
        cases prev with
        | none => trivial
        | some p =>
          show isWordChar p = false
          simpa using hA
      · show NotWordOpt ((c :: rest).dropWhile isHexLower).head?
        cases hh : ((c :: rest).dropWhile isHexLower).head? with
        | none => trivial
        | some d =>
          rw [hh] at hC
          show isWordChar d = false
          simpa using hC
    · rw [if_neg hc] at h
      obtain ⟨pre, run, post, heq, hlen, hhex, hbb, hba⟩ := ih (some c) r h
      refine ⟨c :: pre, run, post, by simp [heq], hlen, hhex, ?_, hba⟩
      show NotWordOpt (charBefore prev (c :: pre))
      rw [charBefore_cons]
      exact hbb

theorem findHexToken_complete (l : List Char) : ∀ (prev : Option Char),
    HasTokenAux prev l → ∃ r, findHexToken prev l = some r := by
  induction l with
  | nil =>
    intro prev h
    obtain ⟨pre, run, post, heq, hlen, -, -, -⟩ := h
    have h0 := heq.symm
    simp only [List.append_eq_nil] at h0
    rw [h0.1.2] at hlen
    simp at hlen
  | cons c rest ih =>
    intro prev h
    obtain ⟨pre, run, post, heq, hlen, hhex, hbb, hba⟩ := h
    rw [findHexToken]
    by_cases hc : hexCondAt prev (c :: rest) = true
    · rw [if_pos hc]; exact ⟨_, rfl⟩
    · rw [if_neg hc]
      cases pre with
      | nil =>
        exfalso
        apply hc
        simp only [List.nil_append] at heq
        have hpost : ∀ d, post.head? = some d → isHexLower d = false := by
          intro d hd
          have hw : isWordChar d = false := by
            have hba2 : NotWordOpt post.head? := hba
            rw [hd] at hba2
            exact hba2
          cases hx : isHexLower d with
          | false => rfl
          | true =>
            rw [hex_isWordChar hx] at hw
            exact absurd hw (by simp)
        have htw := takeWhile_all_append run post hhex hpost
        unfold hexCondAt
        rw [heq, htw.1, htw.2, Bool.and_eq_true, Bool.and_eq_true]
        refine ⟨⟨?_, decide_eq_true hlen⟩, ?_⟩
        · have hbb2 : NotWordOpt (charBefore prev []) := hbb
          cases prev with
          | none => rfl
          | some p =>
            have : isWordChar p = false := hbb2
            simp [this]
        · cases hx : post.head? with
          | none => rfl
          | some d =>
            have hba2 : NotWordOpt post.head? := hba
            rw [hx] at hba2
            have : isWordChar d = false := hba2
            simp [this]
      | cons p pre2 =>
        have hcp : c = p ∧ rest = pre2 ++ run ++ post := by
          have h2 := heq
          simp only [List.cons_append, List.cons.injEq] at h2
          exact h2
        apply ih (some c)
        refine ⟨pre2, run, post, hcp.2, hlen, hhex, ?_, hba⟩
        show NotWordOpt (charBefore (some c) pre2)
        rw [← charBefore_cons prev c pre2]
        rw [hcp.1]
        exact hbb

theorem extract_none_iff (q : String) :
    extract_order_id q = none ↔ ¬ containsHexToken q := by
  constructor
  · intro h htok
    obtain ⟨r, hr⟩ := findHexToken_complete q.data none htok
    rw [extract_order_id, hr] at h
    simp at h
  · intro h
    cases hfind : findHexToken none q.data with
    | none => simp [extract_order_id, hfind]
    | some r => exact absurd (findHexToken_sound q.data none r hfind) h

/-- C1: a query with no substring of 32 or more consecutive lowercase
hex characters bounded by word boundaries makes all four id-dependent
lookups return the fixed validation message, whatever the store holds. -/
theorem c1_no_token_validation_message (q : String) (db : Database)
    (h : ¬ containsHexToken q) :
    get_order_status q db = "Please provide a valid order ID (32-character hex)." ∧
    get_order_details q db = Except.ok "Please provide a valid order ID (32-character hex)." ∧
    get_refund_status q db = "Please provide a valid order ID (32-character hex)." ∧
    get_review q db = "Please provide a valid order ID (32-character hex)." := by
  have he : extract_order_id q = none := (extract_none_iff q).mpr h
  refine ⟨?_, ?_, ?_, ?_⟩
  · rw [get_order_status, he]
  · rw [get_order_details, he]
  · rw [get_refund_status, he]
  · rw [get_review, he]

theorem c1_no_token_validation_message_witness :
    get_order_status "where is my parcel" dbEmpty =
      "Please provide a valid order ID (32-character hex)." ∧
    get_order_details "where is my parcel" dbEmpty =
      Except.ok "Please provide a valid order ID (32-character hex)." ∧
    get_refund_status "where is my parcel" dbEmpty =
      "Please provide a valid order ID (32-character hex)." ∧
    get_review "where is my parcel" dbEmpty =
      "Please provide a valid order ID (32-character hex)." :=
  c1_no_token_validation_message "where is my parcel" dbEmpty
    ((extract_none_iff "where is my parcel").mp (by decide))

/-- C3: for a query carrying a valid order id, get_refund_status
reports no payment info when no payment rows match, a full refund when
the values of the matching rows (nulls as zero) sum to exactly zero,
and otherwise the two-decimal total with unknown refund status. -/
theorem c3_refund_status_cases (q oid : String) (db : Database)
    (h : extract_order_id q = some oid) :
    (paymentsFor db oid = [] →
      get_refund_status q db = "No payment info for order " ++ oid ++ ".") ∧
    (paymentsFor db oid ≠ [] → totalPaid db oid = 0 →
      get_refund_status q db = "Order " ++ oid ++ " was fully refunded.") ∧
    (paymentsFor db oid ≠ [] → totalPaid db oid ≠ 0 →
      get_refund_status q db =
        "Order " ++ oid ++ " was paid " ++ fmt2 (totalPaid db oid) ++
        ", refund status unknown.") := by
  refine ⟨?_, ?_, ?_⟩
  · intro h1
    rw [get_refund_status, h]
    simp [h1]
  · intro h1 h2
    rw [get_refund_status, h]
    simp [List.isEmpty_iff, h1, h2]
  · intro h1 h2
    rw [get_refund_status, h]
    simp [List.isEmpty_iff, h1, h2]

theorem c3_refund_status_cases_witness :
    get_refund_status qRefund dbPaid =
      "Order " ++ hex32a ++ " was paid " ++ fmt2 (totalPaid dbPaid hex32a) ++
      ", refund status unknown." ∧
    get_refund_status qRefund dbRefunded = "Order " ++ hex32a ++ " was fully refunded." :=
  ⟨(c3_refund_status_cases qRefund hex32a dbPaid (by decide)).2.2
      (by decide) (by simp [totalPaid, paymentsFor, dbPaid, pyOrQ]),
   (c3_refund_status_cases qRefund hex32a dbRefunded (by decide)).2.1
      (by decide) (by simp [totalPaid, paymentsFor, dbRefunded, pyOrQ])⟩

/-- C7: evaluation of the code at the failing input.  The claim says a
failed append write in the logging stage is not raised to the caller
of ask_agent; in the code log_interaction has no handler, so the
failure propagates out of the turn and no answer string is returned. -/
theorem c7_log_failure_propagates :
    ask_agent_run "faq" toolsOk id
      (Except.error "PermissionError: cannot open log file") none "hello" =
    Except.error "PermissionError: cannot open log file" := rfl

/-- C10: with an existing order whose item has an unresolved seller
relationship, get_order_details raises an attribute error instead of
returning a summary; an unresolved product relationship instead
degrades to the text unknown category in the item line. -/
theorem c10_missing_seller_vs_missing_product :
    get_order_details qDetails dbNoSeller =
      Except.error "AttributeError: NoneType object has no attribute seller_id" ∧
    get_order_details qDetails dbNoProduct =
      Except.ok ("Order " ++ hex32b ++ " status: delivered\n" ++
        "Purchased: 2018-01-01 10:00:00\n" ++
        "Estimated delivery: 2018-01-20 00:00:00\n" ++
        "Items:\n" ++
        "  - prod1 (unknown category) from sell1 price 10.00") :=
  ⟨rfl, rfl⟩
